import Mathlib

/-!
Shallow embedding of the market-cap-tracker repository.

Sources embedded:
* `src/unnamed/part_000` — the Quote Proxy route `GET /api/nvidia`, variant with
  a 5-minute upstream cache (`revalidate: 300`) that also parses
  `08. previous close`;
* `src/unnamed/part_001` — the same route, variant with a 1-hour upstream cache
  (`revalidate: 3600`) that does not parse the previous close;
* `src/unnamed/part_002`, `src/unnamed/part_003`, `src/app/page.tsx` — the
  Comparison View (`Home`).  All three share verbatim the same state selection
  (`if (nvidiaError || cryptoError) … if (!nvidiaData || !cryptoData) …`) and
  the same derivation arithmetic, so one Lean function embeds them.

Modelling conventions:
* JS numbers are embedded as `ℚ` (the arithmetic the claims concern is exact
  decimal arithmetic); a number that is not finite (NaN from a failed
  `parseFloat`, Infinity from division by zero) is embedded as `none : Option ℚ`.
  The JS `parseFloat` literal `Infinity` is not modelled (no claim involves it);
  a string whose longest numeric prefix is empty parses to `none` (JS NaN).
* A JSON object field that may be absent is an `Option`; `data['Global Quote']`
  present-but-`null` behaves in the source exactly like absent (`!quote` is
  true for both), so both are `none`.
* `new Date().toISOString()` is nondeterministic; the route functions take the
  timestamp string as an explicit parameter.
* A failed `fetch`/`response.json()` (a rejected promise caught by the route's
  `try/catch`) is the `none` case of the route's payload argument.
-/

/-- The digit-list value `ds.foldl (acc*10 + digit) 0`, used by the
`parseFloat` embedding. -/
def digitsToNat (ds : List Char) : Nat :=
  ds.foldl (fun acc d => acc * 10 + (d.toNat - 48)) 0

/-- JS whitespace skipped by `parseFloat` (the common cases). -/
def isJsWhitespace (c : Char) : Bool :=
  c = ' ' ∨ c = '\t' ∨ c = '\n' ∨ c = '\r'

/-- The syntactic pieces of a JS decimal literal recognised by `parseFloat`:
sign, integer digits value, fraction digits value and count, exponent. -/
structure FloatParts where
  neg : Bool
  intVal : Nat
  fracVal : Nat
  fracLen : Nat
  expo : Int
deriving DecidableEq, Repr

/-- The exact rational value of a recognised literal:
`±(intVal + fracVal / 10 ^ fracLen) * 10 ^ expo`. -/
def FloatParts.val (p : FloatParts) : ℚ :=
  (if p.neg then -1 else 1) * ((p.intVal : ℚ) + (p.fracVal : ℚ) / 10 ^ p.fracLen)
    * (10 : ℚ) ^ p.expo

/-- Syntactic stage of JS `parseFloat(s)`: skip leading whitespace, read an
optional sign, digits, an optional fraction, an optional exponent; `none` when
the mantissa has no digit (JS `NaN`). -/
def jsParseFloatParts (s : String) : Option FloatParts :=
  let cs := s.data.dropWhile isJsWhitespace
  let signAndRest : Bool × List Char :=
    match cs with
    | '-' :: rest => (true, rest)
    | '+' :: rest => (false, rest)
    | _ => (false, cs)
  let intSplit := signAndRest.2.span (fun c => c.isDigit)
  let intDs := intSplit.1
  let fracSplit : List Char × List Char :=
    match intSplit.2 with
    | '.' :: rest => rest.span (fun c => c.isDigit)
    | _ => ([], intSplit.2)
  let fracDs := fracSplit.1
  if intDs.isEmpty ∧ fracDs.isEmpty then none
  else
    let expo : Int :=
      match fracSplit.2 with
      | c :: rest =>
        if c = 'e' ∨ c = 'E' then
          let esAndRest : Bool × List Char :=
            match rest with
            | '-' :: r => (true, r)
            | '+' :: r => (false, r)
            | _ => (false, rest)
          let eds := esAndRest.2.takeWhile (fun d => d.isDigit)
          if eds.isEmpty then 0
          else (if esAndRest.1 then -1 else 1) * digitsToNat eds
        else 0
      | [] => 0
    some
      { neg := signAndRest.1
        intVal := digitsToNat intDs
        fracVal := digitsToNat fracDs
        fracLen := fracDs.length
        expo := expo }

/-- Embedding of JS `parseFloat(s)`: the longest valid numeric prefix
converted exactly into `ℚ`; `none` is JS `NaN`. -/
def jsParseFloat (s : String) : Option ℚ :=
  (jsParseFloatParts s).map FloatParts.val

/-- JS `parseFloat` applied to a field that may be absent:
`parseFloat(undefined)` coerces `undefined` to the string "undefined" and
yields `NaN`. -/
def jsParseFloatField (o : Option String) : Option ℚ :=
  match o with
  | some s => jsParseFloat s
  | none => none

/-- Embedding of `s.replace('%', '')` on the character list: JS
`String.prototype.replace` with a string pattern replaces only the first
occurrence, and the replacement here is empty, so the first `'%'` is deleted. -/
def removeFirstPercent : List Char → List Char
  | [] => []
  | c :: cs => if c = '%' then cs else c :: removeFirstPercent cs

/-- `quote['10. change percent'].replace('%', '')` as a `String` map. -/
def stripPercent (s : String) : String :=
  String.mk (removeFirstPercent s.data)

/-- Left-pad the fraction part of `toFixed(2)` to two digits. -/
def pad2 (n : Nat) : String :=
  if n < 10 then "0" ++ toString n else toString n

/-- `x.toFixed(2)` for a nonnegative rational, per ECMA-262: the integer `n`
with `n / 100` closest to `x`, ties to the larger `n`, printed with exactly two
fraction digits. -/
def ratToFixed2Nonneg (q : ℚ) : String :=
  let n := (⌊q * 100 + 1 / 2⌋).toNat
  toString (n / 100) ++ "." ++ pad2 (n % 100)

/-- `x.toFixed(2)` on `ℚ`: ECMA-262 first takes the sign out, so a negative
value rounds half away from zero. -/
def ratToFixed2 (q : ℚ) : String :=
  if q < 0 then "-" ++ ratToFixed2Nonneg (-q) else ratToFixed2Nonneg q

/-- `x.toFixed(2)` on the embedded JS number: `NaN.toFixed(2)` is "NaN". -/
def jsToFixed2 : Option ℚ → String
  | none => "NaN"
  | some q => ratToFixed2 q

/-- A JSON value appearing in a proxy response body: a JS number (possibly
NaN, embedded as `none`) or a string. -/
inductive Jv where
  | num (q : Option ℚ)
  | str (s : String)
deriving DecidableEq, Repr

/-- The `Global Quote` object of the upstream payload; each keyed
numeric-string field may be absent. -/
structure GlobalQuote where
  /-- field "05. price" -/
  price : Option String
  /-- field "08. previous close" -/
  previousClose : Option String
  /-- field "09. change" -/
  change : Option String
  /-- field "10. change percent" -/
  changePercent : Option String
deriving DecidableEq, Repr

/-- The upstream quote payload: an optional string-valued `Information` field
(the rate-limit signal) and an optional `Global Quote` object. -/
structure UpstreamPayload where
  information : Option String
  globalQuote : Option GlobalQuote
deriving DecidableEq, Repr

/-- JS truthiness of `data.Information` for a possibly-absent string value:
absent and the empty string are falsy, every other string is truthy. -/
def jsTruthy : Option String → Bool
  | none => false
  | some s => s ≠ ""

/-- A proxy route response: HTTP status, JSON body as the association list of
the object literal in the source, and the `Cache-Control` header when one is
set. -/
structure ProxyResponse where
  status : Nat
  body : List (String × Jv)
  cacheControl : Option String
deriving DecidableEq, Repr

/-- The `500` response produced by the route's `catch` block:
`NextResponse.json({ error: 'Failed to fetch NVIDIA data' }, { status: 500 })`. -/
def proxyError500 : ProxyResponse :=
  { status := 500
    body := [("error", Jv.str "Failed to fetch NVIDIA data")]
    cacheControl := none }

/-- `GET` of `src/unnamed/part_000` (5-minute cache variant).  Input `none` is
a rejected `fetch`/`json()`; a truthy `Information`, an absent (or `null`)
`Global Quote`, and an absent "10. change percent" field (whose
`undefined.replace` throws a TypeError) all fall into the `catch` block.
`parseFloat` itself never throws, so present-but-non-numeric fields flow
through as NaN.  This variant also parses "08. previous close", which never
appears in the response body. -/
def getQuote300 (input : Option UpstreamPayload) (now : String) : ProxyResponse :=
  match input with
  | none => proxyError500
  | some data =>
    if jsTruthy data.information then proxyError500
    else
      match data.globalQuote with
      | none => proxyError500
      | some quote =>
        match quote.changePercent with
        | none => proxyError500
        | some cps =>
          let price := jsParseFloatField quote.price
          let _previousClose := jsParseFloatField quote.previousClose
          let change := jsParseFloatField quote.change
          let changePercent := jsParseFloat (stripPercent cps)
          let marketCap := price.map (fun p => p * 24.4e9 / 1e12)
          { status := 200
            body :=
              [("price", Jv.num price),
               ("change", Jv.num change),
               ("changePercent", Jv.num changePercent),
               ("marketCap", Jv.str (jsToFixed2 marketCap)),
               ("timestamp", Jv.str now)]
            cacheControl := some "public, s-maxage=300, stale-while-revalidate=600" }

/-- `GET` of `src/unnamed/part_001` (1-hour cache variant); identical to
`getQuote300` except for the cache constants and the absence of the unused
previous-close parse. -/
def getQuote3600 (input : Option UpstreamPayload) (now : String) : ProxyResponse :=
  match input with
  | none => proxyError500
  | some data =>
    if jsTruthy data.information then proxyError500
    else
      match data.globalQuote with
      | none => proxyError500
      | some quote =>
        match quote.changePercent with
        | none => proxyError500
        | some cps =>
          let price := jsParseFloatField quote.price
          let change := jsParseFloatField quote.change
          let changePercent := jsParseFloat (stripPercent cps)
          let marketCap := price.map (fun p => p * 24.4e9 / 1e12)
          { status := 200
            body :=
              [("price", Jv.num price),
               ("change", Jv.num change),
               ("changePercent", Jv.num changePercent),
               ("marketCap", Jv.str (jsToFixed2 marketCap)),
               ("timestamp", Jv.str now)]
            cacheControl := some "public, s-maxage=3600, stale-while-revalidate=7200" }

/-- Look a key up in a response body (first occurrence, as JSON object keys
here are unique). -/
def bodyLookup : List (String × Jv) → String → Option Jv
  | [], _ => none
  | kv :: rest, key => if kv.1 = key then some kv.2 else bodyLookup rest key

/-- The view's `NvidiaData` interface (the proxy's success body as consumed by
the client); the numeric fields are embedded JS numbers. -/
structure NvidiaData where
  price : Option ℚ
  change : Option ℚ
  changePercent : Option ℚ
  marketCap : String
  timestamp : String
deriving DecidableEq, Repr

/-- `total_market_cap` of the crypto aggregate. -/
structure TotalMarketCap where
  usd : ℚ
deriving DecidableEq, Repr

/-- `market_cap_percentage` of the crypto aggregate. -/
structure MarketCapPercentage where
  btc : ℚ
deriving DecidableEq, Repr

/-- The inner `data` object of the view's `CryptoData` interface. -/
structure CryptoDataInner where
  total_market_cap : TotalMarketCap
  market_cap_percentage : MarketCapPercentage
  active_cryptocurrencies : ℤ
deriving DecidableEq, Repr

/-- The view's `CryptoData` interface. -/
structure CryptoData where
  data : CryptoDataInner
deriving DecidableEq, Repr

/-- The observable part of one `useSWR` hook result: the latest resolved data
(if any) and whether the hook currently reports an error. -/
structure Swr (D : Type) where
  data : Option D
  error : Bool
deriving DecidableEq, Repr

/-- The figures derived in the Ready branch of `Home`.  `difference` and
`percentageDiff` are embedded JS numbers: `none` stands for a non-finite
result (NaN when the `marketCap` string does not parse; NaN or Infinity when
`cryptoMarketCap` is zero, where JS division produces a non-finite value the
`ℚ` embedding cannot carry). -/
structure ComparisonResult where
  cryptoMarketCap : ℚ
  btcDominance : ℚ
  difference : Option ℚ
  percentageDiff : Option ℚ
deriving DecidableEq, Repr

/-- The three render outcomes of `Home`: the Error screen (with one detail
line per failed source), the Loading screen (which carries no derived
figures), and the Ready screen with its derived figures. -/
inductive RenderState where
  | errorState (nvidiaDetail cryptoDetail : Bool)
  | loading
  | ready (result : ComparisonResult)
deriving DecidableEq, Repr

/-- The state selection and derivation of `Home`, identical in
`src/unnamed/part_002`, `src/unnamed/part_003` and `src/app/page.tsx`:
`if (nvidiaError || cryptoError)` renders the Error screen whose two detail
lines are guarded by `nvidiaError &&` and `cryptoError &&`; otherwise
`if (!nvidiaData || !cryptoData)` renders Loading; otherwise the derived
constants are computed and the Ready screen rendered. -/
def renderHome (nvidia : Swr NvidiaData) (crypto : Swr CryptoData) : RenderState :=
  if nvidia.error || crypto.error then
    RenderState.errorState nvidia.error crypto.error
  else
    match nvidia.data, crypto.data with
    | some nd, some cd =>
      let cryptoMarketCap := cd.data.total_market_cap.usd / 1e12
      let btcDominance := cd.data.market_cap_percentage.btc
      let difference := (jsParseFloat nd.marketCap).map (fun x => x - cryptoMarketCap)
      let percentageDiff :=
        if cryptoMarketCap = 0 then none
        else difference.map (fun d => d / cryptoMarketCap * 100)
      RenderState.ready
        { cryptoMarketCap := cryptoMarketCap
          btcDominance := btcDominance
          difference := difference
          percentageDiff := percentageDiff }
    | _, _ => RenderState.loading

/-- A representative well-formed `Global Quote` object (all four keyed fields
present and numeric). -/
def sampleQuote : GlobalQuote :=
  { price := some "100"
    previousClose := some "99"
    change := some "1"
    changePercent := some "1.00%" }

/-- A representative well-formed upstream payload: no `Information`, a full
`Global Quote`. -/
def samplePayload : UpstreamPayload :=
  { information := none, globalQuote := some sampleQuote }

/-- The payload used against C4's universal claim: it *contains* an
`Information` field, but the value is the empty string, which is falsy in JS,
so `if (data.Information)` does not throw. -/
def informationFalsyPayload : UpstreamPayload :=
  { information := some "", globalQuote := some sampleQuote }

/-- A payload signalling the upstream rate limit: a non-empty (truthy)
`Information` string. -/
def throttledPayload : UpstreamPayload :=
  { information := some "rate limit reached", globalQuote := none }

/-- The payload used against C5's ParseFailure clause: `Global Quote` is
present and every numeric sub-field is present but non-numeric, so every
`parseFloat` yields NaN and nothing throws. -/
def nanFieldsPayload : UpstreamPayload :=
  { information := none
    globalQuote :=
      some { price := some "abc"
             previousClose := some "abc"
             change := some "abc"
             changePercent := some "abc" } }

/-- The fixed timestamp string used for concrete invocations. -/
def sampleNow : String := "2025-01-01T00:00:00.000Z"

/-- The view-side NVIDIA snapshot of the spec's worked example:
`marketCap: "4.20"`. -/
def nvidia420 : NvidiaData :=
  { price := some 171
    change := some 2
    changePercent := some 1
    marketCap := "4.20"
    timestamp := "2025-01-01T00:00:00.000Z" }

/-- The view-side crypto aggregate of the spec's worked example:
`total_market_cap.usd = 3.5e12`. -/
def crypto35 : CryptoData :=
  { data :=
    { total_market_cap := { usd := 3.5e12 }
      market_cap_percentage := { btc := 50 }
      active_cryptocurrencies := 10000 } }

/-- Evaluation helper: `toFixed(2)` of a nonnegative rational whose rounded
centi-value is the natural number `n`. -/
theorem ratToFixed2_eq_of_floor (q : ℚ) (n : ℕ) (h0 : 0 ≤ q)
    (h1 : ⌊q * 100 + 1 / 2⌋ = (n : ℤ)) :
    ratToFixed2 q = toString (n / 100) ++ "." ++ pad2 (n % 100) := by
  unfold ratToFixed2 ratToFixed2Nonneg
  rw [if_neg (not_lt.mpr h0), h1]
  simp

/-- Evaluation helper: the value of `parseFloat` from its syntactic parts. -/
theorem jsParseFloat_eq_of_parts (s : String) (p : FloatParts)
    (h : jsParseFloatParts s = some p) :
    jsParseFloat s = some p.val := by
  rw [jsParseFloat, h, Option.map_some']

example : jsParseFloat "4.20" = some (21 / 5) := by
  rw [jsParseFloat_eq_of_parts "4.20" ⟨false, 4, 20, 2, 0⟩ (by decide)]
  norm_num [FloatParts.val]
example : jsParseFloat "abc" = none := by decide
example : ratToFixed2 (4 * 24.4e9 / 1e12) = "0.10" := by
  rw [ratToFixed2_eq_of_floor (4 * 24.4e9 / 1e12) 10 (by norm_num) (by norm_num)]
  decide

/-- Success-branch normal form of the 5-minute variant: with a falsy
`Information`, a present `Global Quote` and a present change-percent field,
the route reaches its `NextResponse.json` success call. -/
theorem getQuote300_success (data : UpstreamPayload) (quote : GlobalQuote)
    (cps now : String)
    (hinfo : jsTruthy data.information = false)
    (hq : data.globalQuote = some quote)
    (hcp : quote.changePercent = some cps) :
    getQuote300 (some data) now =
      { status := 200
        body :=
          [("price", Jv.num (jsParseFloatField quote.price)),
           ("change", Jv.num (jsParseFloatField quote.change)),
           ("changePercent", Jv.num (jsParseFloat (stripPercent cps))),
           ("marketCap",
             Jv.str (jsToFixed2
               ((jsParseFloatField quote.price).map (fun p => p * 24.4e9 / 1e12)))),
           ("timestamp", Jv.str now)]
        cacheControl := some "public, s-maxage=300, stale-while-revalidate=600" } := by
  simp [getQuote300, hinfo, hq, hcp]

/-- Success-branch normal form of the 1-hour variant. -/
theorem getQuote3600_success (data : UpstreamPayload) (quote : GlobalQuote)
    (cps now : String)
    (hinfo : jsTruthy data.information = false)
    (hq : data.globalQuote = some quote)
    (hcp : quote.changePercent = some cps) :
    getQuote3600 (some data) now =
      { status := 200
        body :=
          [("price", Jv.num (jsParseFloatField quote.price)),
           ("change", Jv.num (jsParseFloatField quote.change)),
           ("changePercent", Jv.num (jsParseFloat (stripPercent cps))),
           ("marketCap",
             Jv.str (jsToFixed2
               ((jsParseFloatField quote.price).map (fun p => p * 24.4e9 / 1e12)))),
           ("timestamp", Jv.str now)]
        cacheControl := some "public, s-maxage=3600, stale-while-revalidate=7200" } := by
  simp [getQuote3600, hinfo, hq, hcp]

/-- C3: for every combination of the two data sources' results in which at
least one source is in a failed state, the Comparison View renders the single
generic Error state — whose two per-source detail lines are shown exactly for
the failed sources — and never renders Ready, even when the other source
resolved successfully. -/
theorem view_error_never_ready (nvidia : Swr NvidiaData) (crypto : Swr CryptoData)
    (h : nvidia.error = true ∨ crypto.error = true) :
    renderHome nvidia crypto = RenderState.errorState nvidia.error crypto.error ∧
    ∀ r, renderHome nvidia crypto ≠ RenderState.ready r := by
  have hb : (nvidia.error || crypto.error) = true := by
    rcases h with h | h <;> simp [h]
  refine ⟨by simp [renderHome, hb], fun r => by simp [renderHome, hb]⟩

/-- C3 witness: NVIDIA failed while crypto resolved successfully: the Error
state is rendered with only the NVIDIA detail line, not Ready. -/
theorem view_error_never_ready_witness :
    renderHome ⟨none, true⟩ ⟨some crypto35, false⟩ = RenderState.errorState true false ∧
    ∀ r, renderHome ⟨none, true⟩ ⟨some crypto35, false⟩ ≠ RenderState.ready r :=
  view_error_never_ready ⟨none, true⟩ ⟨some crypto35, false⟩ (Or.inl rfl)

/-- C7: when neither data source has resolved and neither has failed, the
view renders the Loading state; the `RenderState.loading` constructor carries
no `ComparisonResult`, so none of the derivation arithmetic is performed (in
the source the derived constants are declared after both early returns). -/
theorem view_loading_when_unresolved (nvidia : Swr NvidiaData) (crypto : Swr CryptoData)
    (hne : nvidia.error = false) (hce : crypto.error = false)
    (hnd : nvidia.data = none) (hcd : crypto.data = none) :
    renderHome nvidia crypto = RenderState.loading ∧
    ∀ r, renderHome nvidia crypto ≠ RenderState.ready r := by
  refine ⟨by simp [renderHome, hne, hce, hnd, hcd], fun r => by simp [renderHome, hne, hce, hnd, hcd]⟩

/-- C7 witness: both sources unresolved and error-free render Loading. -/
theorem view_loading_when_unresolved_witness :
    renderHome (⟨none, false⟩ : Swr NvidiaData) (⟨none, false⟩ : Swr CryptoData)
      = RenderState.loading ∧
    ∀ r, renderHome (⟨none, false⟩ : Swr NvidiaData) (⟨none, false⟩ : Swr CryptoData)
      ≠ RenderState.ready r :=
  view_loading_when_unresolved ⟨none, false⟩ ⟨none, false⟩ rfl rfl rfl rfl

/-- C9 (implicit): Error takes precedence over Loading and Ready in every
render — if either source failed the Error state is rendered even when the
other source has not resolved — and Loading is rendered exactly when neither
source failed and at least one has no data yet. -/
theorem view_error_precedence (nvidia : Swr NvidiaData) (crypto : Swr CryptoData) :
    ((nvidia.error = true ∨ crypto.error = true) →
      renderHome nvidia crypto = RenderState.errorState nvidia.error crypto.error) ∧
    (renderHome nvidia crypto = RenderState.loading ↔
      nvidia.error = false ∧ crypto.error = false ∧
        (nvidia.data = none ∨ crypto.data = none)) := by
  rcases nvidia with ⟨nd, ne⟩
  rcases crypto with ⟨cd, ce⟩
  constructor
  · rintro (h | h) <;> simp_all [renderHome]
  · cases ne <;> cases ce <;> cases nd <;> cases cd <;> simp [renderHome]

/-- C9 witness: a failed NVIDIA source with a still-unresolved crypto source
renders Error (not Loading), and the unresolved pair renders Loading. -/
theorem view_error_precedence_witness :
    renderHome (⟨none, true⟩ : Swr NvidiaData) (⟨none, false⟩ : Swr CryptoData)
      = RenderState.errorState true false ∧
    renderHome (⟨none, false⟩ : Swr NvidiaData) (⟨none, false⟩ : Swr CryptoData)
      = RenderState.loading :=
  ⟨(view_error_precedence ⟨none, true⟩ ⟨none, false⟩).1 (Or.inl rfl),
   (view_error_precedence ⟨none, false⟩ ⟨none, false⟩).2.mpr ⟨rfl, rfl, Or.inl rfl⟩⟩

/-- Ready-branch normal form of `Home`: with no errors and both sources
resolved, the derived constants are exactly the source's four `const`
declarations. -/
theorem renderHome_ready (nvidia : Swr NvidiaData) (crypto : Swr CryptoData)
    (nd : NvidiaData) (cd : CryptoData) (P : ℚ)
    (hne : nvidia.error = false) (hce : crypto.error = false)
    (hnd : nvidia.data = some nd) (hcd : crypto.data = some cd)
    (hP : jsParseFloat nd.marketCap = some P)
    (hz : cd.data.total_market_cap.usd ≠ 0) :
    renderHome nvidia crypto = RenderState.ready
      { cryptoMarketCap := cd.data.total_market_cap.usd / 1e12
        btcDominance := cd.data.market_cap_percentage.btc
        difference := some (P - cd.data.total_market_cap.usd / 1e12)
        percentageDiff := some ((P - cd.data.total_market_cap.usd / 1e12)
            / (cd.data.total_market_cap.usd / 1e12) * 100) } := by
  have hz2 : cd.data.total_market_cap.usd / 1e12 ≠ 0 :=
    div_ne_zero hz (by norm_num)
  simp [renderHome, hne, hce, hnd, hcd, hP, hz2]

/-- C2: in the Ready state the view computes
`cryptoCapTrillions = totalMarketCapUsd / 1e12`,
`nvidiaCapTrillions = parseFloat(marketCap)`,
`differenceTrillions = nvidiaCapTrillions - cryptoCapTrillions` and
`differencePercent = differenceTrillions / cryptoCapTrillions * 100`; in
particular, for `total_market_cap.usd = 3.5e12` and `marketCap = "4.20"` the
difference is exactly `0.70` trillion and the percentage exactly `20`. -/
theorem view_ready_derivation (nvidia : Swr NvidiaData) (crypto : Swr CryptoData)
    (nd : NvidiaData) (cd : CryptoData) (P : ℚ)
    (hne : nvidia.error = false) (hce : crypto.error = false)
    (hnd : nvidia.data = some nd) (hcd : crypto.data = some cd)
    (hP : jsParseFloat nd.marketCap = some P)
    (hz : cd.data.total_market_cap.usd ≠ 0) :
    renderHome nvidia crypto = RenderState.ready
      { cryptoMarketCap := cd.data.total_market_cap.usd / 1e12
        btcDominance := cd.data.market_cap_percentage.btc
        difference := some (P - cd.data.total_market_cap.usd / 1e12)
        percentageDiff := some ((P - cd.data.total_market_cap.usd / 1e12)
            / (cd.data.total_market_cap.usd / 1e12) * 100) } ∧
    renderHome ⟨some nvidia420, false⟩ ⟨some crypto35, false⟩ = RenderState.ready
      { cryptoMarketCap := 7 / 2
        btcDominance := 50
        difference := some (7 / 10)
        percentageDiff := some 20 } := by
  refine ⟨renderHome_ready nvidia crypto nd cd P hne hce hnd hcd hP hz, ?_⟩
  have hp : jsParseFloat nvidia420.marketCap = some ((21 : ℚ) / 5) := by
    rw [show nvidia420.marketCap = "4.20" from rfl,
        jsParseFloat_eq_of_parts "4.20" ⟨false, 4, 20, 2, 0⟩ (by decide)]
    norm_num [FloatParts.val]
  have hz35 : crypto35.data.total_market_cap.usd ≠ 0 := by
    norm_num [crypto35]
  rw [renderHome_ready ⟨some nvidia420, false⟩ ⟨some crypto35, false⟩ nvidia420 crypto35
      ((21 : ℚ) / 5) rfl rfl rfl rfl hp hz35]
  simp only [RenderState.ready.injEq, ComparisonResult.mk.injEq, crypto35]
  norm_num

/-- C2 witness: the spec's worked example evaluated through the view. -/
theorem view_ready_derivation_witness :
    renderHome ⟨some nvidia420, false⟩ ⟨some crypto35, false⟩ = RenderState.ready
      { cryptoMarketCap := 7 / 2
        btcDominance := 50
        difference := some (7 / 10)
        percentageDiff := some 20 } := by
  refine (view_ready_derivation ⟨some nvidia420, false⟩ ⟨some crypto35, false⟩
    nvidia420 crypto35 ((21 : ℚ) / 5) rfl rfl rfl rfl ?_ ?_).2
  · rw [show nvidia420.marketCap = "4.20" from rfl,
        jsParseFloat_eq_of_parts "4.20" ⟨false, 4, 20, 2, 0⟩ (by decide)]
    norm_num [FloatParts.val]
  · norm_num [crypto35]

/-- C1: for every valid upstream quote payload whose price field parses to
`P`, both Quote Proxy variants answer 200 with `marketCap` equal to
`P * 24.4e9 / 1e12` rounded and formatted to exactly two decimal digits as a
string; the value is a function of `P` alone (the same formula for every such
payload), never of a differently-sourced price. -/
theorem quoteProxy_marketCap_formula
    (data : UpstreamPayload) (quote : GlobalQuote) (ps cps now : String) (P : ℚ)
    (hinfo : jsTruthy data.information = false)
    (hq : data.globalQuote = some quote)
    (hcp : quote.changePercent = some cps)
    (hprice : quote.price = some ps)
    (hP : jsParseFloat ps = some P) :
    (getQuote300 (some data) now).status = 200 ∧
    (getQuote3600 (some data) now).status = 200 ∧
    bodyLookup (getQuote300 (some data) now).body "marketCap"
      = some (Jv.str (ratToFixed2 (P * 24.4e9 / 1e12))) ∧
    bodyLookup (getQuote3600 (some data) now).body "marketCap"
      = some (Jv.str (ratToFixed2 (P * 24.4e9 / 1e12))) := by
  rw [getQuote300_success data quote cps now hinfo hq hcp,
      getQuote3600_success data quote cps now hinfo hq hcp]
  refine ⟨rfl, rfl, ?_, ?_⟩ <;>
    simp [bodyLookup, hprice, jsParseFloatField, hP, jsToFixed2]

/-- C1 witness: a payload with price "100" yields
`marketCap = (100 * 24.4e9 / 1e12).toFixed(2) = "2.44"`. -/
theorem quoteProxy_marketCap_formula_witness :
    ((getQuote300 (some samplePayload) sampleNow).status = 200 ∧
     (getQuote3600 (some samplePayload) sampleNow).status = 200 ∧
     bodyLookup (getQuote300 (some samplePayload) sampleNow).body "marketCap"
       = some (Jv.str (ratToFixed2 ((100 : ℚ) * 24.4e9 / 1e12))) ∧
     bodyLookup (getQuote3600 (some samplePayload) sampleNow).body "marketCap"
       = some (Jv.str (ratToFixed2 ((100 : ℚ) * 24.4e9 / 1e12)))) ∧
    ratToFixed2 ((100 : ℚ) * 24.4e9 / 1e12) = "2.44" := by
  refine ⟨quoteProxy_marketCap_formula samplePayload sampleQuote "100" "1.00%"
    sampleNow 100 rfl rfl rfl rfl ?_, ?_⟩
  · rw [jsParseFloat_eq_of_parts "100" ⟨false, 100, 0, 0, 0⟩ (by decide)]
    norm_num [FloatParts.val]
  · rw [ratToFixed2_eq_of_floor ((100 : ℚ) * 24.4e9 / 1e12) 244 (by norm_num) (by norm_num)]
    decide

/-- C6: the change-percent sub-field is parsed by stripping the `%` suffix
first: with upstream value "3.25%" both variants report `changePercent`
exactly `3.25`, and with "-1.10%" exactly `-1.10`. -/
theorem quoteProxy_changePercent_strip :
    bodyLookup (getQuote300
        (some ⟨none, some ⟨some "100", some "99", some "1", some "3.25%"⟩⟩)
        sampleNow).body "changePercent" = some (Jv.num (some (13 / 4))) ∧
    bodyLookup (getQuote300
        (some ⟨none, some ⟨some "100", some "99", some "1", some "-1.10%"⟩⟩)
        sampleNow).body "changePercent" = some (Jv.num (some (-11 / 10))) ∧
    bodyLookup (getQuote3600
        (some ⟨none, some ⟨some "100", some "99", some "1", some "3.25%"⟩⟩)
        sampleNow).body "changePercent" = some (Jv.num (some (13 / 4))) ∧
    bodyLookup (getQuote3600
        (some ⟨none, some ⟨some "100", some "99", some "1", some "-1.10%"⟩⟩)
        sampleNow).body "changePercent" = some (Jv.num (some (-11 / 10))) := by
  refine ⟨?_, ?_, ?_, ?_⟩ <;>
    [rw [getQuote300_success ⟨none, some ⟨some "100", some "99", some "1", some "3.25%"⟩⟩
        ⟨some "100", some "99", some "1", some "3.25%"⟩ "3.25%" sampleNow rfl rfl rfl];
     rw [getQuote300_success ⟨none, some ⟨some "100", some "99", some "1", some "-1.10%"⟩⟩
        ⟨some "100", some "99", some "1", some "-1.10%"⟩ "-1.10%" sampleNow rfl rfl rfl];
     rw [getQuote3600_success ⟨none, some ⟨some "100", some "99", some "1", some "3.25%"⟩⟩
        ⟨some "100", some "99", some "1", some "3.25%"⟩ "3.25%" sampleNow rfl rfl rfl];
     rw [getQuote3600_success ⟨none, some ⟨some "100", some "99", some "1", some "-1.10%"⟩⟩
        ⟨some "100", some "99", some "1", some "-1.10%"⟩ "-1.10%" sampleNow rfl rfl rfl] ] <;>
    simp [bodyLookup] <;>
    [rw [jsParseFloat_eq_of_parts (stripPercent "3.25%") ⟨false, 3, 25, 2, 0⟩ (by decide)];
     rw [jsParseFloat_eq_of_parts (stripPercent "-1.10%") ⟨true, 1, 10, 2, 0⟩ (by decide)];
     rw [jsParseFloat_eq_of_parts (stripPercent "3.25%") ⟨false, 3, 25, 2, 0⟩ (by decide)];
     rw [jsParseFloat_eq_of_parts (stripPercent "-1.10%") ⟨true, 1, 10, 2, 0⟩ (by decide)] ] <;>
    norm_num [FloatParts.val]

/-- C4 counterexample: a payload that *contains* an `Information` field whose
value is the empty string (falsy in JS), together with a valid `Global Quote`,
is answered 200 by both variants — the source tests `if (data.Information)`
(truthiness), not the presence of the key — refuting the claim that every
payload containing an `Information` field gets a 500. -/
theorem quoteProxy_information_presence_counterexample :
    informationFalsyPayload.information.isSome = true ∧
    (getQuote300 (some informationFalsyPayload) sampleNow).status = 200 ∧
    (getQuote3600 (some informationFalsyPayload) sampleNow).status = 200 := by
  refine ⟨rfl, rfl, rfl⟩

/-- C4 amended: for every upstream payload with a *truthy* (non-empty string)
`Information` field, and every upstream payload lacking a `Global Quote`
object, both variants return status 500 with a JSON body containing the error
string field, regardless of any other content of the payload. -/
theorem quoteProxy_throttle_or_shape_500
    (data : UpstreamPayload) (now : String)
    (h : jsTruthy data.information = true ∨ data.globalQuote = none) :
    (getQuote300 (some data) now).status = 500 ∧
    (getQuote3600 (some data) now).status = 500 ∧
    bodyLookup (getQuote300 (some data) now).body "error"
      = some (Jv.str "Failed to fetch NVIDIA data") ∧
    bodyLookup (getQuote3600 (some data) now).body "error"
      = some (Jv.str "Failed to fetch NVIDIA data") := by
  by_cases hi : jsTruthy data.information = true
  · simp [getQuote300, getQuote3600, hi, proxyError500, bodyLookup]
  · have hi2 : jsTruthy data.information = false := by
      simpa using hi
    rcases h with h | h
    · exact absurd h hi
    · simp [getQuote300, getQuote3600, hi2, h, proxyError500, bodyLookup]

/-- C4 witness: a truthy `Information` payload and a quote-less payload both
get the 500 error response. -/
theorem quoteProxy_throttle_or_shape_500_witness :
    ((getQuote300 (some throttledPayload) sampleNow).status = 500 ∧
     (getQuote3600 (some throttledPayload) sampleNow).status = 500 ∧
     bodyLookup (getQuote300 (some throttledPayload) sampleNow).body "error"
       = some (Jv.str "Failed to fetch NVIDIA data") ∧
     bodyLookup (getQuote3600 (some throttledPayload) sampleNow).body "error"
       = some (Jv.str "Failed to fetch NVIDIA data")) ∧
    (getQuote300 (some ⟨none, none⟩) sampleNow).status = 500 :=
  ⟨quoteProxy_throttle_or_shape_500 throttledPayload sampleNow (Or.inl rfl),
   (quoteProxy_throttle_or_shape_500 ⟨none, none⟩ sampleNow (Or.inr rfl)).1⟩

/-- C5 counterexample: with `Global Quote` present and all four numeric
sub-fields present but non-numeric, no exception is thrown — `parseFloat`
returns NaN instead of throwing — so both variants answer 200 (with
`marketCap: "NaN"`), refuting the claim that such a ParseFailure is converted
into a 500. -/
theorem quoteProxy_parse_failure_counterexample :
    (getQuote300 (some nanFieldsPayload) sampleNow).status = 200 ∧
    bodyLookup (getQuote300 (some nanFieldsPayload) sampleNow).body "marketCap"
      = some (Jv.str "NaN") ∧
    (getQuote3600 (some nanFieldsPayload) sampleNow).status = 200 := by
  refine ⟨rfl, by decide, rfl⟩

/-- C5 amended: every *thrown* failure — a rejected fetch/JSON parse, a truthy
`Information`, a missing `Global Quote`, or a missing change-percent field
(whose `undefined.replace` throws) — is converted uniformly into the single
fixed `{error: 'Failed to fetch NVIDIA data'}` 500 response, and a 500 is
never anything else; but a payload whose `Global Quote` and change-percent
field are present never fails, even when its numeric sub-fields do not parse
(those yield NaN in a 200 response). -/
theorem quoteProxy_thrown_failures_uniform
    (input : Option UpstreamPayload) (now : String) :
    ((getQuote300 input now).status = 500 → getQuote300 input now = proxyError500) ∧
    ((getQuote3600 input now).status = 500 → getQuote3600 input now = proxyError500) ∧
    (input = none → (getQuote300 input now).status = 500 ∧
      (getQuote3600 input now).status = 500) ∧
    (∀ data, input = some data → jsTruthy data.information = true →
      (getQuote300 input now).status = 500 ∧ (getQuote3600 input now).status = 500) ∧
    (∀ data, input = some data → data.globalQuote = none →
      (getQuote300 input now).status = 500 ∧ (getQuote3600 input now).status = 500) ∧
    (∀ data quote, input = some data → data.globalQuote = some quote →
      quote.changePercent = none →
      (getQuote300 input now).status = 500 ∧ (getQuote3600 input now).status = 500) ∧
    (∀ data quote cps, input = some data → jsTruthy data.information = false →
      data.globalQuote = some quote → quote.changePercent = some cps →
      (getQuote300 input now).status = 200 ∧ (getQuote3600 input now).status = 200) := by
  refine ⟨?_, ?_, ?_, ?_, ?_, ?_, ?_⟩
  · intro h500
    cases input with
    | none => rfl
    | some data =>
      by_cases hi : jsTruthy data.information = true
      · simp [getQuote300, hi]
      · have hi2 : jsTruthy data.information = false := by simpa using hi
        cases hgq : data.globalQuote with
        | none => simp [getQuote300, hi2, hgq]
        | some quote =>
          cases hcp : quote.changePercent with
          | none => simp [getQuote300, hi2, hgq, hcp]
          | some cps =>
            rw [getQuote300_success data quote cps now hi2 hgq hcp] at h500
            simp at h500
  · intro h500
    cases input with
    | none => rfl
    | some data =>
      by_cases hi : jsTruthy data.information = true
      · simp [getQuote3600, hi]
      · have hi2 : jsTruthy data.information = false := by simpa using hi
        cases hgq : data.globalQuote with
        | none => simp [getQuote3600, hi2, hgq]
        | some quote =>
          cases hcp : quote.changePercent with
          | none => simp [getQuote3600, hi2, hgq, hcp]
          | some cps =>
            rw [getQuote3600_success data quote cps now hi2 hgq hcp] at h500
            simp at h500
  · rintro rfl
    exact ⟨rfl, rfl⟩
  · rintro data rfl hi
    constructor <;> simp [getQuote300, getQuote3600, hi, proxyError500]
  · rintro data rfl hgq
    by_cases hi : jsTruthy data.information = true
    · constructor <;> simp [getQuote300, getQuote3600, hi, proxyError500]
    · have hi2 : jsTruthy data.information = false := by simpa using hi
      constructor <;> simp [getQuote300, getQuote3600, hi2, hgq, proxyError500]
  · rintro data quote rfl hgq hcp
    by_cases hi : jsTruthy data.information = true
    · constructor <;> simp [getQuote300, getQuote3600, hi, proxyError500]
    · have hi2 : jsTruthy data.information = false := by simpa using hi
      constructor <;> simp [getQuote300, getQuote3600, hi2, hgq, hcp, proxyError500]
  · rintro data quote cps rfl hi2 hgq hcp
    rw [getQuote300_success data quote cps now hi2 hgq hcp,
        getQuote3600_success data quote cps now hi2 hgq hcp]
    exact ⟨rfl, rfl⟩

/-- C5 witness: the network-failure case is a 500 whose whole response is the
fixed generic error value. -/
theorem quoteProxy_thrown_failures_uniform_witness :
    getQuote300 none sampleNow = proxyError500 ∧
    (getQuote300 (some throttledPayload) sampleNow).status = 500 :=
  ⟨(quoteProxy_thrown_failures_uniform none sampleNow).1 rfl,
   ((quoteProxy_thrown_failures_uniform (some throttledPayload) sampleNow).2.2.2.1
      throttledPayload rfl rfl).1⟩

/-- C8 counterexample: on a fully valid payload both variants succeed (200)
and neither success body contains a `previousClose` key — so there is no
variant in which every successful invocation includes `previousClose`. -/
theorem quoteProxy_previousClose_never_in_body :
    (getQuote300 (some samplePayload) sampleNow).status = 200 ∧
    bodyLookup (getQuote300 (some samplePayload) sampleNow).body "previousClose" = none ∧
    (getQuote3600 (some samplePayload) sampleNow).status = 200 ∧
    bodyLookup (getQuote3600 (some samplePayload) sampleNow).body "previousClose" = none := by
  refine ⟨rfl, by decide, rfl, by decide⟩

/-- C8 amended: no variant returns `previousClose`: every 200 response body of
either variant consists of exactly the keys price, change, changePercent,
marketCap and timestamp (the 5-minute variant parses "08. previous close"
internally but never includes it in the body). -/
theorem quoteProxy_success_body_keys (input : Option UpstreamPayload) (now : String) :
    ((getQuote300 input now).status = 200 →
      (getQuote300 input now).body.map Prod.fst
        = ["price", "change", "changePercent", "marketCap", "timestamp"] ∧
      bodyLookup (getQuote300 input now).body "previousClose" = none) ∧
    ((getQuote3600 input now).status = 200 →
      (getQuote3600 input now).body.map Prod.fst
        = ["price", "change", "changePercent", "marketCap", "timestamp"] ∧
      bodyLookup (getQuote3600 input now).body "previousClose" = none) := by
  constructor
  · intro h200
    cases input with
    | none => simp [getQuote300, proxyError500] at h200
    | some data =>
      by_cases hi : jsTruthy data.information = true
      · simp [getQuote300, hi, proxyError500] at h200
      · have hi2 : jsTruthy data.information = false := by simpa using hi
        cases hgq : data.globalQuote with
        | none => simp [getQuote300, hi2, hgq, proxyError500] at h200
        | some quote =>
          cases hcp : quote.changePercent with
          | none => simp [getQuote300, hi2, hgq, hcp, proxyError500] at h200
          | some cps =>
            rw [getQuote300_success data quote cps now hi2 hgq hcp]
            exact ⟨by simp, by simp [bodyLookup]⟩
  · intro h200
    cases input with
    | none => simp [getQuote3600, proxyError500] at h200
    | some data =>
      by_cases hi : jsTruthy data.information = true
      · simp [getQuote3600, hi, proxyError500] at h200
      · have hi2 : jsTruthy data.information = false := by simpa using hi
        cases hgq : data.globalQuote with
        | none => simp [getQuote3600, hi2, hgq, proxyError500] at h200
        | some quote =>
          cases hcp : quote.changePercent with
          | none => simp [getQuote3600, hi2, hgq, hcp, proxyError500] at h200
          | some cps =>
            rw [getQuote3600_success data quote cps now hi2 hgq hcp]
            exact ⟨by simp, by simp [bodyLookup]⟩

/-- C8 witness: the key list of a concrete successful response. -/
theorem quoteProxy_success_body_keys_witness :
    (getQuote300 (some samplePayload) sampleNow).body.map Prod.fst
      = ["price", "change", "changePercent", "marketCap", "timestamp"] ∧
    bodyLookup (getQuote300 (some samplePayload) sampleNow).body "previousClose" = none :=
  (quoteProxy_success_body_keys (some samplePayload) sampleNow).1 rfl

/-- C10 (implicit): the two route variants are observationally equivalent on
the payload-to-response mapping: with the same payload and the same clock
they return the same status and the very same body (on success and on
failure alike — in particular the internally parsed previous close never
reaches either body); only their `Cache-Control` constants differ on
success. -/
theorem quoteProxy_variants_equivalent (input : Option UpstreamPayload) (now : String) :
    (getQuote300 input now).status = (getQuote3600 input now).status ∧
    (getQuote300 input now).body = (getQuote3600 input now).body ∧
    ((getQuote300 input now).status = 200 →
      (getQuote300 input now).cacheControl ≠ (getQuote3600 input now).cacheControl) := by
  cases input with
  | none => exact ⟨rfl, rfl, fun h => by simp [getQuote300, proxyError500] at h⟩
  | some data =>
    by_cases hi : jsTruthy data.information = true
    · refine ⟨by simp [getQuote300, getQuote3600, hi], by simp [getQuote300, getQuote3600, hi], ?_⟩
      intro h
      simp [getQuote300, hi, proxyError500] at h
    · have hi2 : jsTruthy data.information = false := by simpa using hi
      cases hgq : data.globalQuote with
      | none =>
        refine ⟨by simp [getQuote300, getQuote3600, hi2, hgq],
                by simp [getQuote300, getQuote3600, hi2, hgq], ?_⟩
        intro h
        simp [getQuote300, hi2, hgq, proxyError500] at h
      | some quote =>
        cases hcp : quote.changePercent with
        | none =>
          refine ⟨by simp [getQuote300, getQuote3600, hi2, hgq, hcp],
                  by simp [getQuote300, getQuote3600, hi2, hgq, hcp], ?_⟩
          intro h
          simp [getQuote300, hi2, hgq, hcp, proxyError500] at h
        | some cps =>
          rw [getQuote300_success data quote cps now hi2 hgq hcp,
              getQuote3600_success data quote cps now hi2 hgq hcp]
          exact ⟨rfl, rfl, fun _ => by simp⟩

/-- C10 witness: equality of status and body, and inequality of the cache
headers, at a concrete successful invocation. -/
theorem quoteProxy_variants_equivalent_witness :
    (getQuote300 (some samplePayload) sampleNow).body
      = (getQuote3600 (some samplePayload) sampleNow).body ∧
    (getQuote300 (some samplePayload) sampleNow).cacheControl
      ≠ (getQuote3600 (some samplePayload) sampleNow).cacheControl :=
  ⟨(quoteProxy_variants_equivalent (some samplePayload) sampleNow).2.1,
   (quoteProxy_variants_equivalent (some samplePayload) sampleNow).2.2 rfl⟩
